import Mathlib

/-!
Shallow embedding of `face_recognition_sys.py` (class `FaceRecognitionSystem`).

Modelling conventions:
* The filesystem / a directory listing is a `List String` of file names
  (a directory has no duplicate entries; writing an already-present name
  overwrites the file and leaves the listing unchanged).
* Video frames are opaque pixel data (`Frame.image : Nat`) together with the
  list of text annotations drawn on them by `cv2.putText`.
* The external matcher `DeepFace.find` is an environment input per call:
  it either raises or returns a list of data frames, each a list of rows
  with an `identity` path and a `distance` (numeric values are modelled
  as rationals; IEEE-754 rounding of the two-decimal format is abstracted
  by exact rational rounding).
* Side effects (temp-file writes, matcher calls, prints, display, key
  polling, snapshot saves, the timeout check) are recorded as an `Event`
  trace so that ordering and occurrence claims can be stated.
-/

/-- ASCII lower-casing of one character, the fragment of `str.lower`
relevant to file names. -/
def asciiLower (c : Char) : Char :=
  if 'A' ≤ c ∧ c ≤ 'Z' then Char.ofNat (c.toNat + 32) else c

/-- `s.lower()` on file names (ASCII fragment). -/
def lowerStr (s : String) : String :=
  String.mk (s.toList.map asciiLower)

/-- `s.endswith(suffix)`. -/
def strEndsWith (s suffixStr : String) : Bool :=
  suffixStr.toList.isSuffixOf s.toList

/-- `os.path.splitext` (posix): split at the last dot of the last path
component, except that a last component consisting only of leading dots
before that dot has no extension (so `".jpg"` splits as `(".jpg", "")`). -/
def splitext (p : String) : String × String :=
  let cs := p.toList
  let n := cs.length
  match (cs.reverse.findIdx? (fun c => c = '.')).map (fun j => n - 1 - j) with
  | none => (p, "")
  | some d =>
    let s : Nat :=
      match (cs.reverse.findIdx? (fun c => c = '/')).map (fun j => n - 1 - j) with
      | none => 0
      | some si => si + 1
    if ((cs.drop s).take (d - s)).any (fun ch => ch ≠ '.') then
      (String.mk (cs.take d), String.mk (cs.drop d))
    else
      (p, "")

/-- `os.path.basename` (posix): everything after the last `/`. -/
def basename (p : String) : String :=
  let cs := p.toList
  match cs.reverse.findIdx? (fun c => c = '/') with
  | none => p
  | some j => String.mk (cs.drop (cs.length - j))

/-- `f.lower().endswith(('.png', '.jpg', '.jpeg'))`, the filter used by
`refresh_known_faces`. -/
def hasImageExt (f : String) : Bool :=
  strEndsWith (lowerStr f) ".png" || strEndsWith (lowerStr f) ".jpg" ||
    strEndsWith (lowerStr f) ".jpeg"

/-- Whether an extension string is, case-insensitively, exactly `.png`,
`.jpg` or `.jpeg` (the spec reading of "the source file's extension"). -/
def isImageExtStr (e : String) : Bool :=
  lowerStr e = ".png" || lowerStr e = ".jpg" || lowerStr e = ".jpeg"

/-- Two-digit zero padding. -/
def pad2 (n : Nat) : String :=
  if n < 10 then "0" ++ toString n else toString n

/-- Four-digit zero padding (for `%Y`). -/
def pad4 (n : Nat) : String :=
  if n < 10 then "000" ++ toString n
  else if n < 100 then "00" ++ toString n
  else if n < 1000 then "0" ++ toString n
  else toString n

/-- The Python format `f"{x:.2f}"`, modelled on exact rationals: round to
hundredths (ties resolved upward; float tie behaviour is abstracted) and
print with two decimals.  `Int.fdiv (200 * q.num + q.den) (2 * q.den)`
is the floor of `100 * q + 1 / 2`, computed on the reduced fraction. -/
def fmt2 (q : ℚ) : String :=
  let n : ℤ := Int.fdiv (200 * q.num + (q.den : ℤ)) (2 * (q.den : ℤ))
  let sgn := if n < 0 then "-" else ""
  let m := n.natAbs
  sgn ++ toString (m / 100) ++ "." ++ pad2 (m % 100)

/-- One `cv2.putText` call: text, position, BGR colour, thickness. -/
structure TextDraw where
  text : String
  pos : Nat × Nat
  color : Nat × Nat × Nat
  thickness : Nat
deriving DecidableEq, Repr

/-- A video frame: opaque pixel content plus the annotations drawn on it. -/
structure Frame where
  image : Nat
  draws : List TextDraw
deriving DecidableEq, Repr

/-- `cv2.putText(frame, text, pos, font, scale, color, thickness)`:
appends an annotation to the frame. -/
def putText (f : Frame) (text : String) (pos : Nat × Nat)
    (color : Nat × Nat × Nat) (thickness : Nat) : Frame :=
  { f with draws := f.draws ++ [⟨text, pos, color, thickness⟩] }

/-- One row of a `DeepFace.find` result data frame. -/
structure MatchRow where
  identity : String
  distance : ℚ
deriving DecidableEq, Repr

/-- Outcome of one call to `DeepFace.find`: a list of data frames (each a
list of rows), or an exception. -/
inductive MatcherOutcome where
  | ok (res : List (List MatchRow))
  | raises
deriving DecidableEq, Repr

/-- Observable side effects of the program, in program order. -/
inductive Event where
  | captureFrame
  | writeTempFile (path : String)
  | callMatcher (imgPath dbPath : String)
  | printLine (s : String)
  | annotateFrame
  | removeTempFile (path : String)
  | displayFrame
  | checkKeys
  | saveSnapshot (filename : String) (f : Frame)
  | timeoutCheck
deriving DecidableEq, Repr

/-- Writing file `p`: a new name is appended to the listing, an existing
one is overwritten in place. -/
def fsWrite (fs : List String) (p : String) : List String :=
  if p ∈ fs then fs else fs ++ [p]

/-- `os.remove p`: the entry disappears from the listing. -/
def fsRemove (fs : List String) (p : String) : List String :=
  fs.filter (fun x => x ≠ p)

/-- The temporary file name used by `recognize_faces_in_frame`. -/
def tempImg : String := "temp_frame.jpg"

/-- Result of one call to `recognize_faces_in_frame`. -/
structure RecOut where
  name : String
  confidence : ℚ
  printed : List String
  annotated : Frame
  fs : List String
  events : List Event
deriving DecidableEq, Repr

/-- `FaceRecognitionSystem.recognize_faces_in_frame`: write the frame to
`temp_frame.jpg`, call `DeepFace.find` on it against `known_faces_dir`,
derive name and confidence from the first row of the first data frame
(or `"Unknown"` / `0.0` on an empty result or an exception), print the
result, draw the label, remove the temp file, return the frame. -/
def recognize_faces_in_frame (known_faces_dir : String) (fs : List String)
    (frame : Frame) (matcher : MatcherOutcome) : RecOut :=
  let fs1 := fsWrite fs tempImg
  let nc : String × ℚ :=
    match matcher with
    | MatcherOutcome.raises => ("Unknown", 0)
    | MatcherOutcome.ok res =>
      match res with
      | [] => ("Unknown", 0)
      | df :: _ =>
        match df with
        | [] => ("Unknown", 0)
        | best :: _ =>
          ((splitext (basename best.identity)).1, 1 - best.distance)
  let name := nc.1
  let confidence := nc.2
  let printedLine :=
    "Detected: " ++ name ++ " (Confidence: " ++ fmt2 confidence ++ ")"
  let label :=
    if name ≠ "Unknown" then name ++ " (" ++ fmt2 confidence ++ ")"
    else "Unknown"
  let color : Nat × Nat × Nat :=
    if name ≠ "Unknown" then (0, 255, 0) else (0, 0, 255)
  let annotated := putText frame label (10, 30) color 2
  let fs2 := if tempImg ∈ fs1 then fsRemove fs1 tempImg else fs1
  { name := name
    confidence := confidence
    printed := [printedLine]
    annotated := annotated
    fs := fs2
    events := [Event.writeTempFile tempImg,
               Event.callMatcher tempImg known_faces_dir,
               Event.printLine printedLine,
               Event.annotateFrame,
               Event.removeTempFile tempImg] }

/-- `FaceRecognitionSystem.refresh_known_faces`: names of image files in
the known-faces directory, extensions stripped. -/
def refresh_known_faces (files : List String) : List String :=
  (files.filter (fun f => hasImageExt f)).map (fun f => (splitext f).1)

/-- Result of `add_new_face`: return value, directory listing afterwards,
lines printed. -/
structure AddOut where
  ret : Bool
  files : List String
  printed : List String
deriving DecidableEq, Repr

/-- `FaceRecognitionSystem.add_new_face`: copy the image to the
known-faces directory as `name + ext` where `ext` is the source path's
extension, refresh, print, return `True`. If the copy raises, the
exception propagates (`none`). -/
def add_new_face (files : List String) (image_path name : String)
    (copy_ok : Bool) : Option AddOut :=
  if copy_ok then
    let ext := (splitext image_path).2
    let dest := name ++ ext
    let files' := fsWrite files dest
    some { ret := true
           files := files'
           printed := ["Added " ++ name ++ " to known faces"] }
  else none

/-- A `datetime.now()` reading. -/
structure Timestamp where
  year : Nat
  month : Nat
  day : Nat
  hour : Nat
  minute : Nat
  second : Nat
deriving DecidableEq, Repr

/-- `datetime.strftime("%Y%m%d_%H%M%S")`. -/
def strftime_ts (t : Timestamp) : String :=
  pad4 t.year ++ pad2 t.month ++ pad2 t.day ++ "_" ++
    pad2 t.hour ++ pad2 t.minute ++ pad2 t.second

/-- The snapshot file name built when `'s'` is pressed. -/
def snapshot_filename (ts : Timestamp) : String :=
  "capture_" ++ strftime_ts ts ++ ".jpg"

/-- `ord 'q'`. -/
def qKey : Nat := 113

/-- `ord 's'`. -/
def sKey : Nat := 115

/-- Environment inputs consumed by one iteration of the realtime loop:
the camera read result, the matcher outcome for this frame, the key
reported by `cv2.waitKey(1) & 0xFF`, the `time.time()` reading at the
timeout check, and the `datetime.now()` reading used for a snapshot. -/
structure Tick where
  ret : Bool
  frame : Frame
  matcher : MatcherOutcome
  key : Nat
  now : ℚ
  ts : Timestamp
deriving DecidableEq, Repr

/-- Why the realtime loop stopped. -/
inductive StopReason where
  | readError
  | quit
  | timeLimit
deriving DecidableEq, Repr

/-- Effect of one iteration of the `while True` loop. -/
structure StepOut where
  events : List Event
  fs : List String
  newLast : Option Frame
  stop : Option StopReason
deriving DecidableEq, Repr

/-- One iteration of the loop body of `start_realtime_recognition`:
read a frame (break on failure), recognize (write temp file, call
matcher, print, annotate, remove temp file), display, poll keys
(`'q'` breaks, `'s'` saves a snapshot), then check the ten-second
timeout. -/
def loopStep (known_faces_dir : String) (start_time : ℚ) (fs : List String)
    (t : Tick) : StepOut :=
  if t.ret = false then
    { events := [Event.captureFrame, Event.printLine "Error: Could not read frame"]
      fs := fs
      newLast := none
      stop := some StopReason.readError }
  else
    let r := recognize_faces_in_frame known_faces_dir fs t.frame t.matcher
    let evBase := Event.captureFrame :: r.events ++ [Event.displayFrame, Event.checkKeys]
    if t.key = qKey then
      { events := evBase, fs := r.fs, newLast := some r.annotated, stop := some StopReason.quit }
    else
      let keyEvents :=
        if t.key = sKey then
          [Event.saveSnapshot (snapshot_filename t.ts) r.annotated,
           Event.printLine ("Frame saved as " ++ snapshot_filename t.ts)]
        else []
      let fs2 := if t.key = sKey then fsWrite r.fs (snapshot_filename t.ts) else r.fs
      if 10 < t.now - start_time then
        { events := evBase ++ keyEvents ++
            [Event.timeoutCheck, Event.printLine "Time limit reached (10 seconds)."]
          fs := fs2
          newLast := some r.annotated
          stop := some StopReason.timeLimit }
      else
        { events := evBase ++ keyEvents ++ [Event.timeoutCheck]
          fs := fs2
          newLast := some r.annotated
          stop := none }

/-- Result of running the realtime loop on a list of environment ticks. -/
structure LoopOut where
  events : List Event
  fs : List String
  last : Option Frame
  stop : Option StopReason
  consumed : Nat
deriving DecidableEq, Repr

/-- The `while True` loop of `start_realtime_recognition`, driven by a
list of environment ticks; `stop = none` means the environment ran out
with the loop still running. -/
def runLoop (known_faces_dir : String) (start_time : ℚ) :
    List String → Option Frame → List Tick → LoopOut
  | fs, last, [] => { events := [], fs := fs, last := last, stop := none, consumed := 0 }
  | fs, last, t :: ts =>
    let s := loopStep known_faces_dir start_time fs t
    let last' := match s.newLast with
      | some f => some f
      | none => last
    match s.stop with
    | some r =>
      { events := s.events, fs := s.fs, last := last', stop := some r, consumed := 1 }
    | none =>
      let rest := runLoop known_faces_dir start_time s.fs last' ts
      { events := s.events ++ rest.events
        fs := rest.fs
        last := rest.last
        stop := rest.stop
        consumed := 1 + rest.consumed }

/-- `FaceRecognitionSystem.start_realtime_recognition`: header prints,
camera-open check, the loop, release and final print.  Returns the
events and the value `last_result` returned by the Python function. -/
def start_realtime_recognition (known_faces_dir : String)
    (camera_opened : Bool) (start_time : ℚ) (fs : List String)
    (ticks : List Tick) : List Event × Option Frame :=
  let header := [Event.printLine "Starting real-time face recognition...",
                 Event.printLine "Press 'q' to quit, 's' to save current frame"]
  if camera_opened = false then
    (header ++ [Event.printLine "Error: Could not open webcam"], none)
  else
    let out := runLoop known_faces_dir start_time fs none ticks
    (header ++ out.events ++ [Event.printLine "Face recognition stopped"], out.last)

/-- Recognizer of snapshot-save events. -/
def isSaveSnapshot : Event → Bool
  | Event.saveSnapshot _ _ => true
  | _ => false

/-- Recognizer of matcher-call events. -/
def isCallMatcher : Event → Bool
  | Event.callMatcher _ _ => true
  | _ => false

/-- Recognizer of the timeout-check event. -/
def isTimeoutCheck : Event → Bool
  | Event.timeoutCheck => true
  | _ => false

/-- Membership in the refreshed known-faces list: exactly the
extension-stripped names of listed files with an image extension. -/
theorem mem_refresh_known_faces_iff (files : List String) (n : String) :
    n ∈ refresh_known_faces files ↔
      ∃ f ∈ files, hasImageExt f = true ∧ (splitext f).1 = n := by
  unfold refresh_known_faces
  constructor
  · intro h
    rcases List.mem_map.mp h with ⟨f, hf, hstem⟩
    rcases List.mem_filter.mp hf with ⟨hmem, himg⟩
    exact ⟨f, hmem, himg, hstem⟩
  · rintro ⟨f, hmem, himg, hstem⟩
    exact List.mem_map.mpr ⟨f, List.mem_filter.mpr ⟨hmem, himg⟩, hstem⟩

/-- Writing a file always puts it in the listing. -/
theorem mem_fsWrite_self (fs : List String) (p : String) : p ∈ fsWrite fs p := by
  unfold fsWrite
  split
  · assumption
  · exact List.mem_append_right _ (List.mem_singleton.mpr rfl)

/-- Membership in a listing after a write. -/
theorem mem_fsWrite_iff (fs : List String) (p x : String) :
    x ∈ fsWrite fs p ↔ x ∈ fs ∨ x = p := by
  unfold fsWrite
  split
  · rename_i h
    constructor
    · exact fun hx => Or.inl hx
    · rintro (hx | rfl)
      · exact hx
      · exact h
  · simp [List.mem_append]

/-- C1: whenever the matcher raises or returns an empty result,
`recognize_faces_in_frame` reports the name `"Unknown"` with confidence
`0.0`, prints exactly the one line `Detected: Unknown (Confidence: 0.00)`,
and draws the bare red `"Unknown"` label; every failure path produces this
same outcome and nothing else is reported. -/
theorem C1_failure_collapses_to_unknown (known_faces_dir : String)
    (fs : List String) (frame : Frame) (m : MatcherOutcome)
    (h : m = MatcherOutcome.raises ∨ m = MatcherOutcome.ok [] ∨
      ∃ rest, m = MatcherOutcome.ok ([] :: rest)) :
    (recognize_faces_in_frame known_faces_dir fs frame m).name = "Unknown" ∧
    (recognize_faces_in_frame known_faces_dir fs frame m).confidence = 0 ∧
    (recognize_faces_in_frame known_faces_dir fs frame m).printed =
      ["Detected: Unknown (Confidence: 0.00)"] ∧
    (recognize_faces_in_frame known_faces_dir fs frame m).annotated =
      putText frame "Unknown" (10, 30) (0, 0, 255) 2 := by
  have hfmt : fmt2 0 = "0.00" := by decide
  rcases h with h | h | ⟨rest, h⟩ <;> subst h <;>
    exact ⟨rfl, rfl, by simp [recognize_faces_in_frame, hfmt], by rfl⟩

/-- C1 witness: the exception path at a concrete input. -/
theorem C1_failure_collapses_to_unknown_witness :
    (recognize_faces_in_frame "known_faces" [] ⟨0, []⟩ MatcherOutcome.raises).name = "Unknown" ∧
    (recognize_faces_in_frame "known_faces" [] ⟨0, []⟩ MatcherOutcome.raises).confidence = 0 ∧
    (recognize_faces_in_frame "known_faces" [] ⟨0, []⟩ MatcherOutcome.raises).printed =
      ["Detected: Unknown (Confidence: 0.00)"] ∧
    (recognize_faces_in_frame "known_faces" [] ⟨0, []⟩ MatcherOutcome.raises).annotated =
      putText ⟨0, []⟩ "Unknown" (10, 30) (0, 0, 255) 2 :=
  C1_failure_collapses_to_unknown "known_faces" [] ⟨0, []⟩ MatcherOutcome.raises (Or.inl rfl)

/-- C2 counterexample: with a non-empty matcher result whose best row's
extension-stripped basename is the literal string `"Unknown"` (a reference
image named `Unknown.jpg`), the frame does not receive an overlay of the
form `name ++ " (" ++ confidence ++ ")"`: the code draws the bare label
`"Unknown"` without the confidence. -/
theorem C2_overlay_counterexample :
    ¬ ∃ d ∈ (recognize_faces_in_frame "known_faces" [] ⟨0, []⟩
        (MatcherOutcome.ok [[⟨"known_faces/Unknown.jpg", 0⟩]])).annotated.draws,
      d.text = (splitext (basename "known_faces/Unknown.jpg")).1 ++ " (" ++
        fmt2 (1 - (0 : ℚ)) ++ ")" := by
  rintro ⟨d, hd, ht⟩
  have hdr : (recognize_faces_in_frame "known_faces" [] ⟨0, []⟩
      (MatcherOutcome.ok [[⟨"known_faces/Unknown.jpg", 0⟩]])).annotated.draws =
      [⟨"Unknown", (10, 30), (0, 0, 255), 2⟩] := by decide
  rw [hdr] at hd
  have hde : d = ⟨"Unknown", (10, 30), (0, 0, 255), 2⟩ := List.mem_singleton.mp hd
  have hname : (splitext (basename "known_faces/Unknown.jpg")).1 = "Unknown" := by decide
  rw [hde, hname] at ht
  have hlen := congrArg (fun s => s.data.length) ht
  simp only [String.data_append, List.length_append] at hlen
  have h7 : ("Unknown" : String).data.length = 7 := by decide
  have h2 : (" (" : String).data.length = 2 := by decide
  have h1 : (")" : String).data.length = 1 := by decide
  rw [h7, h2, h1] at hlen
  omega

/-- C2 (amended): on a non-empty matcher result, the name is the
extension-stripped basename of the first row's identity and the confidence
is one minus that row's distance; the overlay is `name (confidence)` in
green unless that name is the literal string `"Unknown"`, in which case
the overlay is the bare string `"Unknown"` in red without the confidence. -/
theorem C2_best_match_overlay (known_faces_dir : String) (fs : List String)
    (frame : Frame) (best : MatchRow) (more : List MatchRow)
    (rest : List (List MatchRow)) :
    (recognize_faces_in_frame known_faces_dir fs frame
      (MatcherOutcome.ok ((best :: more) :: rest))).name =
        (splitext (basename best.identity)).1 ∧
    (recognize_faces_in_frame known_faces_dir fs frame
      (MatcherOutcome.ok ((best :: more) :: rest))).confidence =
        1 - best.distance ∧
    (recognize_faces_in_frame known_faces_dir fs frame
      (MatcherOutcome.ok ((best :: more) :: rest))).annotated =
      putText frame
        (if (splitext (basename best.identity)).1 ≠ "Unknown" then
          (splitext (basename best.identity)).1 ++ " (" ++
            fmt2 (1 - best.distance) ++ ")"
        else "Unknown")
        (10, 30)
        (if (splitext (basename best.identity)).1 ≠ "Unknown" then
          (0, 255, 0) else (0, 0, 255))
        2 :=
  ⟨rfl, rfl, rfl⟩

/-- C6: after a refresh, the known-face names are exactly the
extension-stripped names of the files in the known-faces directory whose
names end, case-insensitively, in `.png`, `.jpg` or `.jpeg`. -/
theorem C6_known_face_names_exactly_image_stems (files : List String) :
    refresh_known_faces files =
      (files.filter (fun f => hasImageExt f)).map (fun f => (splitext f).1) ∧
    ∀ n, n ∈ refresh_known_faces files ↔
      ∃ f ∈ files, hasImageExt f = true ∧ (splitext f).1 = n :=
  ⟨rfl, fun n => mem_refresh_known_faces_iff files n⟩

/-- C8: the printed line, reported name and confidence, and the annotated
frame depend only on the frame and the matcher outcome: two runs on the
same frame with the same matcher outcome agree on all of them, whatever
the directory and filesystem state. -/
theorem C8_output_function_of_matcher (dir1 dir2 : String)
    (fs1 fs2 : List String) (frame : Frame) (m : MatcherOutcome) :
    (recognize_faces_in_frame dir1 fs1 frame m).name =
      (recognize_faces_in_frame dir2 fs2 frame m).name ∧
    (recognize_faces_in_frame dir1 fs1 frame m).confidence =
      (recognize_faces_in_frame dir2 fs2 frame m).confidence ∧
    (recognize_faces_in_frame dir1 fs1 frame m).printed =
      (recognize_faces_in_frame dir2 fs2 frame m).printed ∧
    (recognize_faces_in_frame dir1 fs1 frame m).annotated =
      (recognize_faces_in_frame dir2 fs2 frame m).annotated :=
  ⟨rfl, rfl, rfl, rfl⟩

/-- C9: the temporary file `temp_frame.jpg` is absent from the filesystem
when `recognize_faces_in_frame` returns, for every matcher outcome,
including the exception path. -/
theorem C9_temp_file_removed (known_faces_dir : String) (fs : List String)
    (frame : Frame) (m : MatcherOutcome) :
    tempImg ∉ (recognize_faces_in_frame known_faces_dir fs frame m).fs := by
  have hmem : tempImg ∈ fsWrite fs tempImg := mem_fsWrite_self fs tempImg
  show tempImg ∉
    (if tempImg ∈ fsWrite fs tempImg then fsRemove (fsWrite fs tempImg) tempImg
     else fsWrite fs tempImg)
  rw [if_pos hmem]
  unfold fsRemove
  intro hx
  have := List.mem_filter.mp hx
  simp at this

/-- C10 counterexample: adding `photo.gif` under the name `alice` while
the directory already holds `alice.jpg` reports success, the source
extension `.gif` is not an image extension, and yet `alice` is listed as
a known face afterwards — refuting the claimed equivalence. -/
theorem C10_add_new_face_counterexample :
    add_new_face ["alice.jpg"] "photo.gif" "alice" true =
      some { ret := true
             files := ["alice.jpg", "alice.gif"]
             printed := ["Added alice to known faces"] } ∧
    isImageExtStr (splitext "photo.gif").2 = false ∧
    "alice" ∈ refresh_known_faces ["alice.jpg", "alice.gif"] := by
  refine ⟨by decide, by decide, by decide⟩

/-- C10 (amended): when the copy succeeds `add_new_face` returns `True`
and copies the source to `name ++ ext`; the name is then listed as known
if and only if either that destination file name has an image extension
and splits back to the name, or the directory already contained an
image-extension file whose extension-stripped name is the given name.
(With a fresh directory and a name containing a non-dot character this
reduces to: if and only if the source extension is, case-insensitively,
`.png`, `.jpg` or `.jpeg`.) -/
theorem C10_add_new_face_success_and_membership (files : List String)
    (image_path name : String) :
    add_new_face files image_path name true =
      some { ret := true
             files := fsWrite files (name ++ (splitext image_path).2)
             printed := ["Added " ++ name ++ " to known faces"] } ∧
    (name ∈ refresh_known_faces
        (fsWrite files (name ++ (splitext image_path).2)) ↔
      ((hasImageExt (name ++ (splitext image_path).2) = true ∧
        (splitext (name ++ (splitext image_path).2)).1 = name) ∨
       ∃ f ∈ files, hasImageExt f = true ∧ (splitext f).1 = name)) := by
  refine ⟨rfl, ?_⟩
  rw [mem_refresh_known_faces_iff]
  constructor
  · rintro ⟨f, hf, himg, hstem⟩
    rcases (mem_fsWrite_iff files (name ++ (splitext image_path).2) f).mp hf with
      h | rfl
    · exact Or.inr ⟨f, h, himg, hstem⟩
    · exact Or.inl ⟨himg, hstem⟩
  · rintro (⟨himg, hstem⟩ | ⟨f, hf, himg, hstem⟩)
    · exact ⟨name ++ (splitext image_path).2,
        mem_fsWrite_self files _, himg, hstem⟩
    · exact ⟨f,
        (mem_fsWrite_iff files (name ++ (splitext image_path).2) f).mpr
          (Or.inl hf), himg, hstem⟩

/-- The recognizer always emits the same event shape: temp-file write,
matcher call, result print, annotation, temp-file removal. -/
theorem recognize_events_shape (dir : String) (fs : List String)
    (frame : Frame) (m : MatcherOutcome) :
    ∃ pl, (recognize_faces_in_frame dir fs frame m).events =
      [Event.writeTempFile tempImg, Event.callMatcher tempImg dir,
       Event.printLine pl, Event.annotateFrame,
       Event.removeTempFile tempImg] :=
  ⟨_, rfl⟩

/-- C4: every fully processed loop iteration (frame read succeeded, no
`'q'` quit) performs the capture, the temp-file write, the matcher call,
the annotation, the display and the key check in this order, all before
the timeout check. -/
theorem C4_iteration_event_order (dir : String) (start : ℚ)
    (fs : List String) (t : Tick) (hret : t.ret = true)
    (hq : t.key ≠ qKey) :
    [Event.captureFrame, Event.writeTempFile tempImg,
     Event.callMatcher tempImg dir, Event.annotateFrame,
     Event.displayFrame, Event.checkKeys,
     Event.timeoutCheck].Sublist (loopStep dir start fs t).events := by
  obtain ⟨pl, hre⟩ := recognize_events_shape dir fs t.frame t.matcher
  by_cases hs : t.key = sKey <;> by_cases ht : 10 < t.now - start <;>
    simp [loopStep, hret, hq, hs, ht, hre] <;>
    repeat first
      | exact List.nil_sublist _
      | exact List.Sublist.refl _
      | apply List.Sublist.cons₂
      | apply List.Sublist.cons

/-- C4 witness: a concrete non-quit iteration. -/
theorem C4_iteration_event_order_witness :
    [Event.captureFrame, Event.writeTempFile tempImg,
     Event.callMatcher tempImg "known_faces", Event.annotateFrame,
     Event.displayFrame, Event.checkKeys,
     Event.timeoutCheck].Sublist
      (loopStep "known_faces" 0 []
        ⟨true, ⟨0, []⟩, MatcherOutcome.raises, 0, 0, ⟨2025, 1, 1, 0, 0, 0⟩⟩).events :=
  C4_iteration_event_order "known_faces" 0 []
    ⟨true, ⟨0, []⟩, MatcherOutcome.raises, 0, 0, ⟨2025, 1, 1, 0, 0, 0⟩⟩
    rfl (by decide)

/-- C7: an iteration saves a snapshot exactly when the frame was read and
the `'s'` key was pressed; the file saved is the annotated frame under
the name `capture_<YYYYMMDD_HHMMSS>.jpg` built from the current time,
and a confirmation line is printed. -/
theorem C7_snapshot_on_s_key (dir : String) (start : ℚ)
    (fs : List String) (t : Tick) :
    (loopStep dir start fs t).events.filter isSaveSnapshot =
      (if t.ret = true ∧ t.key = sKey then
        [Event.saveSnapshot (snapshot_filename t.ts)
          (recognize_faces_in_frame dir fs t.frame t.matcher).annotated]
      else []) ∧
    (t.ret = true ∧ t.key = sKey →
      Event.printLine ("Frame saved as " ++ snapshot_filename t.ts) ∈
        (loopStep dir start fs t).events) := by
  obtain ⟨pl, hre⟩ := recognize_events_shape dir fs t.frame t.matcher
  have hq_ne_s : ¬ qKey = sKey := by decide
  have hs_ne_q : ¬ sKey = qKey := by decide
  by_cases hr : t.ret = true
  · by_cases hq : t.key = qKey
    · have hs : ¬ t.key = sKey := by
        rw [hq]
        exact hq_ne_s
      constructor
      · simp [loopStep, hr, hq, hs, hre, isSaveSnapshot, hq_ne_s]
      · rintro ⟨-, hsk⟩
        exact absurd hsk hs
    · by_cases hs : t.key = sKey <;> by_cases ht : 10 < t.now - start <;>
        constructor <;>
        simp [loopStep, hr, hq, hs, ht, hre, isSaveSnapshot, hs_ne_q]
  · have hr' : t.ret = false := by
      cases h : t.ret
      · rfl
      · exact absurd h hr
    constructor
    · simp [loopStep, hr', hr, isSaveSnapshot]
    · rintro ⟨hrt, -⟩
      exact absurd hrt hr

/-- C7 witness: a concrete `'s'`-key iteration saves the annotated frame
and prints the confirmation. -/
theorem C7_snapshot_on_s_key_witness :
    ((loopStep "known_faces" 0 []
        ⟨true, ⟨0, []⟩, MatcherOutcome.raises, 115, 0,
          ⟨2025, 1, 1, 0, 0, 0⟩⟩).events.filter isSaveSnapshot =
      (if (true = true ∧ (115 : Nat) = sKey) then
        [Event.saveSnapshot (snapshot_filename ⟨2025, 1, 1, 0, 0, 0⟩)
          (recognize_faces_in_frame "known_faces" [] ⟨0, []⟩
            MatcherOutcome.raises).annotated]
      else [])) ∧
    Event.printLine ("Frame saved as " ++ snapshot_filename ⟨2025, 1, 1, 0, 0, 0⟩) ∈
      (loopStep "known_faces" 0 []
        ⟨true, ⟨0, []⟩, MatcherOutcome.raises, 115, 0,
          ⟨2025, 1, 1, 0, 0, 0⟩⟩).events :=
  ⟨(C7_snapshot_on_s_key "known_faces" 0 []
      ⟨true, ⟨0, []⟩, MatcherOutcome.raises, 115, 0, ⟨2025, 1, 1, 0, 0, 0⟩⟩).1,
   (C7_snapshot_on_s_key "known_faces" 0 []
      ⟨true, ⟨0, []⟩, MatcherOutcome.raises, 115, 0, ⟨2025, 1, 1, 0, 0, 0⟩⟩).2
     ⟨rfl, rfl⟩⟩

/-- Every iteration whose frame read succeeded performs exactly one
matcher call, against `temp_frame.jpg` and the known-faces directory. -/
theorem loopStep_matcher_calls (dir : String) (start : ℚ)
    (fs : List String) (t : Tick) (h : t.ret = true) :
    (loopStep dir start fs t).events.filter isCallMatcher =
      [Event.callMatcher tempImg dir] := by
  obtain ⟨pl, hre⟩ := recognize_events_shape dir fs t.frame t.matcher
  have hs_ne_q : ¬ sKey = qKey := by decide
  by_cases hq : t.key = qKey
  · simp [loopStep, h, hq, hre, isCallMatcher]
  · by_cases hs : t.key = sKey <;> by_cases ht : 10 < t.now - start <;>
      simp [loopStep, h, hq, hs, ht, hre, isCallMatcher, hs_ne_q]

/-- C5: over any run of the loop in which every frame read succeeds, the
matcher-call events are exactly one call per consumed frame, each against
the freshly written `temp_frame.jpg` and the flat known-faces directory;
no result is reused across frames. -/
theorem C5_matcher_called_afresh_every_frame (dir : String) (start : ℚ)
    (ticks : List Tick) (fs : List String) (last : Option Frame)
    (hall : ∀ u ∈ ticks, u.ret = true) :
    (runLoop dir start fs last ticks).events.filter isCallMatcher =
      List.replicate (runLoop dir start fs last ticks).consumed
        (Event.callMatcher tempImg dir) := by
  induction ticks generalizing fs last with
  | nil => simp [runLoop]
  | cons t ts ih =>
    have hret : t.ret = true := hall t (List.mem_cons_self t ts)
    have hall' : ∀ u ∈ ts, u.ret = true :=
      fun u hu => hall u (List.mem_cons_of_mem t hu)
    have hstep := loopStep_matcher_calls dir start fs t hret
    simp only [runLoop]
    cases hstop : (loopStep dir start fs t).stop with
    | some r => simp [hstop, hstep]
    | none =>
      simp only [hstop]
      simp [List.filter_append, hstep, ih _ _ hall']
      rw [Nat.add_comm, List.replicate_succ]

/-- C5 witness: two successfully read frames produce exactly two matcher
calls against the known-faces directory. -/
theorem C5_matcher_called_afresh_every_frame_witness :
    (runLoop "known_faces" 0 [] none
      [⟨true, ⟨0, []⟩, MatcherOutcome.raises, 0, 1, ⟨2025, 1, 1, 0, 0, 0⟩⟩,
       ⟨true, ⟨1, []⟩, MatcherOutcome.ok [], 0, 2, ⟨2025, 1, 1, 0, 0, 1⟩⟩]).events.filter
        isCallMatcher =
      List.replicate
        (runLoop "known_faces" 0 [] none
          [⟨true, ⟨0, []⟩, MatcherOutcome.raises, 0, 1, ⟨2025, 1, 1, 0, 0, 0⟩⟩,
           ⟨true, ⟨1, []⟩, MatcherOutcome.ok [], 0, 2, ⟨2025, 1, 1, 0, 0, 1⟩⟩]).consumed
        (Event.callMatcher tempImg "known_faces") :=
  C5_matcher_called_afresh_every_frame "known_faces" 0
    [⟨true, ⟨0, []⟩, MatcherOutcome.raises, 0, 1, ⟨2025, 1, 1, 0, 0, 0⟩⟩,
     ⟨true, ⟨1, []⟩, MatcherOutcome.ok [], 0, 2, ⟨2025, 1, 1, 0, 0, 1⟩⟩]
    [] none (by simp)

/-- An iteration with a good read, no quit key and the timeout not yet
exceeded continues the loop, having performed exactly one timeout check. -/
theorem loopStep_continue_of (dir : String) (start : ℚ) (fs : List String)
    (t : Tick) (h1 : t.ret = true) (h2 : t.key ≠ qKey)
    (h3 : ¬ 10 < t.now - start) :
    (loopStep dir start fs t).stop = none ∧
    (loopStep dir start fs t).events.filter isTimeoutCheck =
      [Event.timeoutCheck] := by
  obtain ⟨pl, hre⟩ := recognize_events_shape dir fs t.frame t.matcher
  have hs_ne_q : ¬ sKey = qKey := by decide
  by_cases hs : t.key = sKey <;>
    constructor <;>
    simp [loopStep, h1, h2, h3, hs, hre, isTimeoutCheck, hs_ne_q]

/-- An iteration with a good read and no quit key whose clock reading
exceeds the ten-second limit stops the loop with the time-limit reason,
right after its single timeout check. -/
theorem loopStep_timeout_of (dir : String) (start : ℚ) (fs : List String)
    (t : Tick) (h1 : t.ret = true) (h2 : t.key ≠ qKey)
    (h3 : 10 < t.now - start) :
    (loopStep dir start fs t).stop = some StopReason.timeLimit ∧
    (loopStep dir start fs t).events.filter isTimeoutCheck =
      [Event.timeoutCheck] := by
  obtain ⟨pl, hre⟩ := recognize_events_shape dir fs t.frame t.matcher
  have hs_ne_q : ¬ sKey = qKey := by decide
  by_cases hs : t.key = sKey <;>
    constructor <;>
    simp [loopStep, h1, h2, h3, hs, hre, isTimeoutCheck, hs_ne_q]

/-- C3: if every earlier iteration read its frame, saw no `'q'` and was
within the ten-second limit, then the first iteration whose clock reading
exceeds ten seconds since `start_time` stops the loop with the time-limit
reason; the loop consumes exactly those iterations, and the timeout was
checked exactly once per processed frame. -/
theorem C3_timeout_terminates_loop (dir : String) (start : ℚ)
    (fs : List String) (last : Option Frame) (pre : List Tick) (t : Tick)
    (post : List Tick)
    (hpre : ∀ u ∈ pre, u.ret = true ∧ u.key ≠ qKey ∧ ¬ 10 < u.now - start)
    (h1 : t.ret = true) (h2 : t.key ≠ qKey) (h3 : 10 < t.now - start) :
    (runLoop dir start fs last (pre ++ t :: post)).stop =
      some StopReason.timeLimit ∧
    (runLoop dir start fs last (pre ++ t :: post)).consumed =
      pre.length + 1 ∧
    (runLoop dir start fs last (pre ++ t :: post)).events.filter
        isTimeoutCheck =
      List.replicate (pre.length + 1) Event.timeoutCheck := by
  induction pre generalizing fs last with
  | nil =>
    obtain ⟨hstop, hev⟩ := loopStep_timeout_of dir start fs t h1 h2 h3
    simp only [List.nil_append, runLoop]
    simp [hstop, hev]
  | cons u us ih =>
    obtain ⟨h1u, h2u, h3u⟩ := hpre u (List.mem_cons_self u us)
    have hpre' : ∀ v ∈ us, v.ret = true ∧ v.key ≠ qKey ∧
        ¬ 10 < v.now - start :=
      fun v hv => hpre v (List.mem_cons_of_mem u hv)
    obtain ⟨hstop, hev⟩ := loopStep_continue_of dir start fs u h1u h2u h3u
    simp only [List.cons_append, runLoop]
    simp only [hstop]
    obtain ⟨ih1, ih2, ih3⟩ :=
      ih (loopStep dir start fs u).fs
        (match (loopStep dir start fs u).newLast with
          | some f => some f
          | none => last) hpre'
    refine ⟨by simpa using ih1, ?_, ?_⟩
    · simpa [ih2] using by omega
    · simp [List.filter_append, hev, ih3, List.replicate_succ]

/-- C3 witness: with a first in-time frame and a second frame read at
eleven seconds, the loop stops for the time limit after consuming both
frames, having checked the timeout twice. -/
theorem C3_timeout_terminates_loop_witness :
    (runLoop "known_faces" 0 [] none
      ([⟨true, ⟨0, []⟩, MatcherOutcome.raises, 0, 1, ⟨2025, 1, 1, 0, 0, 0⟩⟩] ++
        ⟨true, ⟨1, []⟩, MatcherOutcome.ok [], 0, 11, ⟨2025, 1, 1, 0, 0, 11⟩⟩ ::
          [])).stop = some StopReason.timeLimit ∧
    (runLoop "known_faces" 0 [] none
      ([⟨true, ⟨0, []⟩, MatcherOutcome.raises, 0, 1, ⟨2025, 1, 1, 0, 0, 0⟩⟩] ++
        ⟨true, ⟨1, []⟩, MatcherOutcome.ok [], 0, 11, ⟨2025, 1, 1, 0, 0, 11⟩⟩ ::
          [])).consumed = 2 ∧
    (runLoop "known_faces" 0 [] none
      ([⟨true, ⟨0, []⟩, MatcherOutcome.raises, 0, 1, ⟨2025, 1, 1, 0, 0, 0⟩⟩] ++
        ⟨true, ⟨1, []⟩, MatcherOutcome.ok [], 0, 11, ⟨2025, 1, 1, 0, 0, 11⟩⟩ ::
          [])).events.filter isTimeoutCheck =
      List.replicate 2 Event.timeoutCheck :=
  C3_timeout_terminates_loop "known_faces" 0 [] none
    [⟨true, ⟨0, []⟩, MatcherOutcome.raises, 0, 1, ⟨2025, 1, 1, 0, 0, 0⟩⟩]
    ⟨true, ⟨1, []⟩, MatcherOutcome.ok [], 0, 11, ⟨2025, 1, 1, 0, 0, 11⟩⟩ []
    (by
      intro u hu
      rw [List.mem_singleton.mp hu]
      refine ⟨rfl, by decide, by norm_num⟩)
    rfl (by decide) (by norm_num)
